import Mathlib

/-!
Verification of the Flux BitTorrent client session core against its
natural-language specification.

The Python sources under flux/core (session_worker.py, torrent.py,
peer_filter.py, rss_monitor.py) are shallowly embedded below: pure
functions become Lean functions, stateful methods become explicit
state-passing functions, and the external collaborators (the libtorrent
engine, the re regex module, the socket address parser) are modelled as
parameters or as Option-valued fields, exactly where the Python code
calls out to them.  Machine floats that the claims never inspect are
modelled as rationals.
-/

namespace Flux

/-! ## Python string primitives

The embedded code uses str.startswith, str.endswith, the "in" substring
test and str.strip.  They are given explicit executable definitions on
the character list underlying a String. -/

/-- Python s.startswith(p). -/
def pyStartsWith (s p : String) : Bool :=
  p.data.isPrefixOf s.data

/-- Python s.endswith(p). -/
def pyEndsWith (s p : String) : Bool :=
  p.data.isSuffixOf s.data

/-- Membership of a needle in a list of characters, first occurrence. -/
def charsContain (needle : List Char) : List Char → Bool
  | [] => decide (needle = [])
  | c :: rest => needle.isPrefixOf (c :: rest) || charsContain needle rest

/-- Python "needle in hay" on strings. -/
def pyContains (hay needle : String) : Bool :=
  charsContain needle.data hay.data

/-- Python s.strip(): remove leading and trailing whitespace. -/
def pyStrip (s : String) : String :=
  ⟨((s.data.dropWhile Char.isWhitespace).reverse.dropWhile Char.isWhitespace).reverse⟩

end Flux

namespace Flux

/-! ## RSS ingester (flux/core/rss_monitor.py) -/

/-- Single parsed item from an RSS/Atom feed (rss_monitor.FeedItem). -/
structure FeedItem where
  title : String := ""
  link : String := ""
  magnet : String := ""
  torrentUrl : String := ""
  pubDate : String := ""
  size : Int := 0
  guid : String := ""
deriving Repr, DecidableEq

/-- FeedItem.download_url (rss_monitor.py lines 40-48).  Translated from
the source: the link branch tests endswith(".torrent") or the Python
substring test "magnet:" in link. -/
def FeedItem.downloadUrl (it : FeedItem) : String :=
  if it.magnet ≠ "" then it.magnet
  else if it.torrentUrl ≠ "" then it.torrentUrl
  else if it.link ≠ "" ∧ (pyEndsWith it.link ".torrent" ∨ pyContains it.link "magnet:") then
    it.link
  else ""

/-- The derivation of download_url exactly as the specification words it
(section 3): "magnet first, then torrent_url, else link if it ends
.torrent or begins magnet:, else empty". -/
def FeedItem.downloadUrlSpec (it : FeedItem) : String :=
  if it.magnet ≠ "" then it.magnet
  else if it.torrentUrl ≠ "" then it.torrentUrl
  else if it.link ≠ "" ∧ (pyEndsWith it.link ".torrent" ∨ pyStartsWith it.link "magnet:") then
    it.link
  else ""

/-- Configuration for a single RSS feed (rss_monitor.FeedConfig). -/
structure FeedConfig where
  url : String := ""
  name : String := ""
  enabled : Bool := true
  intervalMinutes : Int := 30
  includePattern : String := ""
  excludePattern : String := ""
  savePath : String := ""
  category : String := ""
  autoDownload : Bool := true
deriving Repr, DecidableEq

/-- The dict argument of FeedConfig.from_dict, restricted to the declared
dataclass fields (from_dict drops every other key).  A missing key is
none; from_dict then falls back to the dataclass default. -/
structure FeedDict where
  url : Option String := none
  name : Option String := none
  enabled : Option Bool := none
  intervalMinutes : Option Int := none
  includePattern : Option String := none
  excludePattern : Option String := none
  savePath : Option String := none
  category : Option String := none
  autoDownload : Option Bool := none
deriving Repr, DecidableEq

/-- FeedConfig.from_dict (rss_monitor.py lines 96-98): construct the
dataclass from the keys present, defaults for the rest.  No field is
validated or clamped. -/
def FeedConfig.fromDict (d : FeedDict) : FeedConfig :=
  { url := d.url.getD ""
    name := d.name.getD ""
    enabled := d.enabled.getD true
    intervalMinutes := d.intervalMinutes.getD 30
    includePattern := d.includePattern.getD ""
    excludePattern := d.excludePattern.getD ""
    savePath := d.savePath.getD ""
    category := d.category.getD ""
    autoDownload := d.autoDownload.getD true }

/-- RSSMonitor.load_config (rss_monitor.py lines 348-355): each dict is
turned into a FeedConfig via from_dict and added unchanged whenever its
url is non-empty.  (add_feed stores the config as given.) -/
def loadConfig (feedList : List FeedDict) : List FeedConfig :=
  (feedList.map FeedConfig.fromDict).filter (fun c => c.url ≠ "")

end Flux

namespace Flux

/-! ## Peer filter (flux/core/peer_filter.py)

External collaborators are parameters: research models
re.search(pattern, text, re.IGNORECASE) (true iff the regex matches
somewhere in the text), and parseIp models
struct.unpack of socket.inet_aton (none when the address string does not
parse, in which case the Python code catches the raised error). -/

/-- peer_filter.BanRule. -/
structure BanRule where
  pattern : String
  reason : String
  enabled : Bool := true
deriving Repr, DecidableEq

/-- PeerFilter.KNOWN_LEECHERS: built-in abusive peer-id prefixes. -/
def KNOWN_LEECHERS : List BanRule :=
  [ ⟨"-XL", "Xunlei/Thunder", true⟩,
    ⟨"-SD", "Thunder (Xunlei variant)", true⟩,
    ⟨"-XF", "Xfplay", true⟩,
    ⟨"-QD", "QQ Tornado/Whirlwind", true⟩,
    ⟨"-BN", "Baidu Net", true⟩,
    ⟨"-DL", "Dalunlei", true⟩,
    ⟨"-TS", "TorrentStorm", true⟩,
    ⟨"-FG", "FlashGet", true⟩,
    ⟨"-TT", "TuoTu", true⟩ ]

/-- PeerFilter.SUSPICIOUS_CLIENTS: client-name regex patterns.  The
pattern strings are kept verbatim; their matching is delegated to the
research parameter, as the source delegates to the re module. -/
def SUSPICIOUS_CLIENTS : List BanRule :=
  [ ⟨"Xunlei", "Xunlei client name match", true⟩,
    ⟨"Thunder", "Thunder client name match", true⟩,
    ⟨"QQDownload", "QQ Download", true⟩,
    ⟨"7\\.\\d+\\.\\d+\\.\\d+", "Xunlei version pattern", true⟩ ]

/-- Mutable state of a PeerFilter (the ban log ring buffer only records
decisions already made and never influences one; it is not modelled). -/
structure PeerFilter where
  enabled : Bool := true
  banXunlei : Bool := true
  banQq : Bool := true
  banBaidu : Bool := true
  customBans : List BanRule := []
  ipBlocklist : List (Nat × Nat) := []
  whitelist : List String := []

/-- Decoding of one peer-id byte with errors="replace": ASCII bytes map
to themselves, anything else to U+FFFD. -/
def decodeByte (b : Nat) : Char :=
  if b < 128 then Char.ofNat b else '�'

/-- peer_id.decode("ascii", errors="replace")[:8] if peer_id else "". -/
def peerIdStr (peerId : List Nat) : String :=
  ⟨(peerId.map decodeByte).take 8⟩

/-- PeerFilter._get_active_rules (peer_filter.py lines 112-124): the
built-in rules minus those suppressed by the category flags. -/
def PeerFilter.getActiveRules (f : PeerFilter) : List BanRule :=
  KNOWN_LEECHERS.filter (fun r =>
    !((r.pattern = "-XL" ∨ r.pattern = "-SD" ∨ r.pattern = "-DL") ∧ ¬f.banXunlei)
    && !(r.pattern = "-QD" ∧ ¬f.banQq)
    && !(r.pattern = "-BN" ∧ ¬f.banBaidu)
    && r.enabled)

/-- PeerFilter._check_ip_blocked (peer_filter.py lines 126-135): parse
the address; on parse failure the raised error is swallowed and the
function returns False; otherwise scan the inclusive ranges. -/
def PeerFilter.checkIpBlocked (parseIp : String → Option Nat)
    (f : PeerFilter) (ip : String) : Bool :=
  match parseIp ip with
  | none => false
  | some ipInt => f.ipBlocklist.any (fun r => r.1 ≤ ipInt ∧ ipInt ≤ r.2)

/-- PeerFilter.check_peer (peer_filter.py lines 70-110).  Returns
(shouldBan, reason). -/
def PeerFilter.checkPeer (research : String → String → Bool)
    (parseIp : String → Option Nat) (f : PeerFilter)
    (peerId : List Nat) (clientName ip : String) : Bool × String :=
  if ¬f.enabled then (false, "")
  else
    let pidStr := peerIdStr peerId
    if f.whitelist.any (fun p => pyStartsWith pidStr p) then (false, "")
    else
      match (f.getActiveRules).find? (fun r => pyStartsWith pidStr r.pattern) with
      | some r => (true, r.reason)
      | none =>
        match SUSPICIOUS_CLIENTS.find? (fun r => r.enabled && research r.pattern clientName) with
        | some r => (true, r.reason)
        | none =>
          match f.customBans.find? (fun r =>
              r.enabled && (pyStartsWith pidStr r.pattern || research r.pattern clientName)) with
          | some r => (true, r.reason)
          | none =>
            if f.checkIpBlocked parseIp ip then (true, "IP blocklist")
            else (false, "")

/-- The decision algorithm exactly as the specification words it
(section 4.3, steps 1-7), written over the same external parameters. -/
def PeerFilter.checkPeerSpec (research : String → String → Bool)
    (parseIp : String → Option Nat) (f : PeerFilter)
    (peerId : List Nat) (clientName ip : String) : Bool × String :=
  let pidStr := peerIdStr peerId
  -- step 1: disabled means allow
  if f.enabled = false then (false, "")
  -- step 2: whitelist beats everything else
  else if f.whitelist.any (fun p => pyStartsWith pidStr p) then (false, "")
  else
    -- step 3: active built-in peer-id rules, first prefix match wins
    match (f.getActiveRules).find? (fun r => pyStartsWith pidStr r.pattern) with
    | some r => (true, r.reason)
    | none =>
      -- step 4: client-name patterns
      match SUSPICIOUS_CLIENTS.find? (fun r => r.enabled && research r.pattern clientName) with
      | some r => (true, r.reason)
      | none =>
        -- step 5: custom rules, prefix or client-name regex
        match f.customBans.find? (fun r =>
            r.enabled && (pyStartsWith pidStr r.pattern || research r.pattern clientName)) with
        | some r => (true, r.reason)
        | none =>
          -- step 6: IP blocklist; step 7: allow
          if f.checkIpBlocked parseIp ip then (true, "IP blocklist")
          else (false, "")

end Flux

namespace Flux

/-! ## Torrent model (flux/core/torrent.py)

The libtorrent handle and its status call are the external engine: a
handle carries the hash string that str(handle.info_hash()) would
return, its is_valid() bit, and status() as an Option (none models the
call raising, which snapshot() catches).  Float-valued status fields are
embedded as rationals. -/

/-- torrent.TorrentState. -/
inductive TorrentState
  | downloading | seeding | paused | queued | checking
  | error | stalled | completed | metadata | moving
deriving Repr, DecidableEq

/-- The libtorrent torrent_status.states enumeration. -/
inductive LtState
  | queuedForChecking | checkingFiles | downloadingMetadata | downloading
  | finished | seeding | allocating | checkingResumeData
deriving Repr, DecidableEq

/-- The bundle returned by one handle.status() engine call, restricted
to the fields torrent.py reads. -/
structure LtStatus where
  errcValue : Int := 0
  errcMessage : String := ""
  paused : Bool := false
  autoManaged : Bool := false
  state : LtState := .downloading
  name : String := ""
  hasMetadata : Bool := false
  savePath : String := ""
  progress : ℚ := 0
  totalWanted : Int := 0
  totalWantedDone : Int := 0
  allTimeDownload : Int := 0
  allTimeUpload : Int := 0
  downloadRate : Int := 0
  uploadRate : Int := 0
  numSeeds : Int := 0
  numPeers : Int := 0
  numConnections : Int := 0
deriving Repr, DecidableEq

/-- An engine torrent_handle as the embedded code observes it. -/
structure Handle where
  hash : String
  valid : Bool := true
  status : Option LtStatus := none
  dlLimit : Int := 0
  ulLimit : Int := 0
deriving Repr, DecidableEq

/-- torrent.TorrentSnapshot. -/
structure TorrentSnapshot where
  valid : Bool := false
  state : TorrentState := .error
  name : String := "Unknown"
  infoHash : String := ""
  savePath : String := ""
  hasMetadata : Bool := false
  progress : ℚ := 0
  totalSize : Int := 0
  completedSize : Int := 0
  totalDownloaded : Int := 0
  totalUploaded : Int := 0
  downloadSpeed : Int := 0
  uploadSpeed : Int := 0
  numSeeds : Int := 0
  numPeers : Int := 0
  numConnections : Int := 0
  ratio : ℚ := 0
  eta : Int := 0
  error : String := ""
  category : String := ""
  tags : List String := []
  addedTime : ℚ := 0
  downloadLimit : Int := 0
  uploadLimit : Int := 0
deriving Repr, DecidableEq

/-- Torrent._resolve_state (torrent.py lines 216-253), translated from
the source.  The paused and auto_managed bits read successfully on the
primary attribute path. -/
def resolveState (s : LtStatus) : TorrentState :=
  if s.errcValue ≠ 0 then .error
  else
    if s.paused ∧ ¬s.autoManaged then .paused
    else if s.paused ∧ s.autoManaged then .queued
    else if s.state = .checkingFiles ∨ s.state = .checkingResumeData then .checking
    else if s.state = .downloadingMetadata then .metadata
    else if s.state = .downloading then
      if s.downloadRate < 1024 ∧ s.numSeeds > 0 then .stalled else .downloading
    else if s.state = .finished then .completed
    else if s.state = .seeding then .seeding
    else .downloading

/-- The state-resolution decision tree exactly as the specification
words it (section 4.1, rules 1-10 evaluated in order). -/
def resolveStateSpec (s : LtStatus) : TorrentState :=
  if s.errcValue ≠ 0 then .error                                             -- rule 1
  else if s.paused = true ∧ s.autoManaged = false then .paused               -- rule 2
  else if s.paused = true ∧ s.autoManaged = true then .queued                -- rule 3
  else if s.state = .checkingFiles ∨ s.state = .checkingResumeData then .checking -- rule 4
  else if s.state = .downloadingMetadata then .metadata                      -- rule 5
  else if s.state = .downloading ∧ s.downloadRate < 1024 ∧ s.numSeeds > 0 then .stalled -- rule 6
  else if s.state = .downloading then .downloading                           -- rule 7
  else if s.state = .finished then .completed                                -- rule 8
  else if s.state = .seeding then .seeding                                   -- rule 9
  else .downloading                                                          -- rule 10

/-- A Torrent wrapper object: the handle, organization metadata, the
speed history ring and the cached snapshot self._snap. -/
structure Torrent where
  handle : Handle
  category : String := ""
  tags : List String := []
  addedTime : ℚ := 0
  speedHistDl : List Int := []
  speedHistUl : List Int := []
  snap : TorrentSnapshot := {}
deriving Repr, DecidableEq

/-- Python "s or d" for strings: s if non-empty else d. -/
def strOr (s d : String) : String := if s ≠ "" then s else d

/-- Torrent.snapshot (torrent.py lines 141-214): one status query,
cached into self._snap and returned.  Returns the updated wrapper and
the snapshot it produced.  The branch for handle.status = none is the
broad except arm of the source (the status call raised). -/
def Torrent.snapshot (t : Torrent) : Torrent × TorrentSnapshot :=
  if ¬t.handle.valid then
    let snap : TorrentSnapshot :=
      { valid := false, state := .error,
        name := strOr t.snap.name "Invalid",
        infoHash := t.snap.infoHash,
        category := t.category, tags := t.tags,
        addedTime := t.addedTime, error := "Handle is invalid" }
    ({ t with snap := snap }, snap)
  else
    match t.handle.status with
    | none =>
      let snap : TorrentSnapshot :=
        { valid := false, state := .error,
          name := strOr t.snap.name "Error",
          infoHash := t.snap.infoHash,
          category := t.category, tags := t.tags,
          addedTime := t.addedTime, error := "status raised" }
      ({ t with snap := snap }, snap)
    | some s =>
      let name :=
        if s.hasMetadata then s.name
        else if s.name ≠ "" then s.name
        else t.handle.hash
      let ratio : ℚ :=
        if s.allTimeDownload > 0 then (s.allTimeUpload : ℚ) / (s.allTimeDownload : ℚ) else 0
      let eta : Int :=
        if s.downloadRate > 0 ∧ s.totalWanted - s.totalWantedDone > 0 then
          (s.totalWanted - s.totalWantedDone) / s.downloadRate
        else 0
      let snap : TorrentSnapshot :=
        { valid := true, state := resolveState s, name := name,
          infoHash := t.handle.hash,
          savePath := s.savePath, hasMetadata := s.hasMetadata,
          progress := s.progress,
          totalSize := if s.hasMetadata then s.totalWanted else 0,
          completedSize := s.totalWantedDone,
          totalDownloaded := s.allTimeDownload,
          totalUploaded := s.allTimeUpload,
          downloadSpeed := s.downloadRate, uploadSpeed := s.uploadRate,
          numSeeds := s.numSeeds, numPeers := s.numPeers,
          numConnections := s.numConnections,
          ratio := ratio, eta := eta,
          error := if s.errcValue ≠ 0 then s.errcMessage else "",
          category := t.category, tags := t.tags,
          addedTime := t.addedTime,
          downloadLimit := t.handle.dlLimit, uploadLimit := t.handle.ulLimit }
      ({ t with snap := snap }, snap)

/-- Bounded append used by the speed histories: append, then pop the
front when over capacity. -/
def capAppend (cap : Nat) (l : List Int) (x : Int) : List Int :=
  let l' := l ++ [x]
  if l'.length > cap then l'.drop 1 else l'

/-- Torrent.record_speed (torrent.py lines 516-523): push the cached
snapshot rates onto the per-torrent histories (capacity 120). -/
def Torrent.recordSpeed (t : Torrent) : Torrent :=
  { t with
    speedHistDl := capAppend 120 t.speedHistDl t.snap.downloadSpeed,
    speedHistUl := capAppend 120 t.speedHistUl t.snap.uploadSpeed }

/-- Construction of a Torrent in add_torrent_file / add_magnet /
_load_resume_data: Torrent(handle, category=..., tags=...), whose
constructor takes an initial snapshot immediately. -/
def Torrent.create (handle : Handle) (category : String) (tags : List String)
    (addedTime : ℚ) : Torrent :=
  (Torrent.snapshot
    { handle := handle, category := category, tags := tags,
      addedTime := addedTime }).1

end Flux

namespace Flux

/-! ## Session worker (flux/core/session_worker.py)

The outbound Qt signals of the worker are modelled as an Event list
returned by each slot, in emission order.  The specification
additionally names an AddFailed(reason) event; the constructor is
present below so the specification claim about it can be stated, but
the signal declarations of the worker (session_worker.py lines 71-82)
contain no such signal and the embedded slots never construct it. -/

/-- Outbound events.  addFailed exists only in the specification
vocabulary, never in the source signal set. -/
inductive Event
  | torrentAdded (infoHash : String)
  | torrentRemoved (infoHash : String)
  | torrentFinished (infoHash : String)
  | torrentError (infoHash msg : String)
  | torrentMetadata (infoHash : String)
  | statsUpdated
  | peerBanned (ip reason : String)
  | magnetUriReady (uri : String)
  | started
  | stopped
  | addFailed (reason : String)
deriving Repr, DecidableEq

/-- One row of the resume_data table, in the columns the code writes
(_handle_save_resume_data) and reads (_load_resume_data).  The dl_limit
and ul_limit columns are never read or written by the code; they exist
only at the schema level and are therefore tracked there. -/
structure Row where
  infoHash : String
  resumeBlob : List Nat := []
  name : String := ""
  category : String := ""
  tagsJson : List String := []
  addedTime : ℚ := 0
  savePath : String := ""
deriving Repr, DecidableEq

/-- Schema-level state of the resume_data table. -/
structure ResumeTable where
  hasLimitCols : Bool := false
  rows : List Row := []
deriving Repr, DecidableEq

/-- State of the resume.db SQLite database.
schemaVersionTable = none models the absence of the schema_version
table; some none models the table with no id=1 row; some (some v) the
stored version v.  resumeTable = none models the absence of the
resume_data table. -/
structure DbState where
  schemaVersionTable : Option (Option Nat) := none
  resumeTable : Option ResumeTable := none
deriving Repr, DecidableEq

/-- Constant _SCHEMA_VERSION (session_worker.py line 36). -/
def SCHEMA_VERSION : Nat := 2

/-- SessionWorker._get_schema_version (lines 485-491): the stored
version, 0 when the table or the row is missing. -/
def getSchemaVersion (db : DbState) : Nat :=
  match db.schemaVersionTable with
  | none => 0
  | some none => 0
  | some (some v) => v

/-- SessionWorker._set_schema_version (lines 493-496). -/
def setSchemaVersion (db : DbState) (v : Nat) : DbState :=
  { db with schemaVersionTable := some (some v) }

/-- CREATE TABLE IF NOT EXISTS resume_data with the columns of the
version-0 branch of _init_resume_db (lines 469-479): the column list
has no dl_limit / ul_limit. -/
def createResumeTableIfAbsent (db : DbState) : DbState :=
  match db.resumeTable with
  | some _ => db
  | none => { db with resumeTable := some { hasLimitCols := false, rows := [] } }

/-- SessionWorker._migrate_schema (lines 498-514). -/
def migrateSchema (db : DbState) (fromVersion : Nat) : DbState :=
  let db := if fromVersion < 1 then createResumeTableIfAbsent db else db
  let db :=
    if fromVersion < 2 then
      match db.resumeTable with
      | none => db
      | some t =>
        -- ALTER TABLE ... ADD COLUMN dl_limit / ul_limit; a duplicate
        -- column raises OperationalError which the source swallows
        if t.hasLimitCols then db
        else { db with resumeTable := some ({ t with hasLimitCols := true }) }
    else db
  setSchemaVersion db SCHEMA_VERSION

/-- SessionWorker._init_resume_db (lines 455-483): ensure the
schema_version table, read the version, and either create the current
schema (version 0) or migrate (0 < version < current). -/
def initResumeDb (db : DbState) : DbState :=
  let db :=
    match db.schemaVersionTable with
    | some _ => db
    | none => { db with schemaVersionTable := some none }
  let version := getSchemaVersion db
  if version = 0 then
    setSchemaVersion (createResumeTableIfAbsent db) SCHEMA_VERSION
  else if version < SCHEMA_VERSION then
    migrateSchema db version
  else db

/-- Worker state: the fields of SessionWorker that the claims concern.
resumeDb = none models self._resume_db is None (before initialize /
after shutdown). -/
structure Worker where
  sessionActive : Bool := false
  torrents : List (String × Torrent) := []
  resumeDb : Option DbState := none
  sessionDlHistory : List Int := []
  sessionUlHistory : List Int := []
deriving Repr, DecidableEq

/-- Dict lookup on the torrent table (Python dict preserving insertion
order, keys unique). -/
def Worker.lookup (w : Worker) (infoHash : String) : Option Torrent :=
  (w.torrents.find? (fun p => p.1 = infoHash)).map Prod.snd

/-- SessionWorker.add_magnet (lines 260-296).  engineAdd models
lt.parse_magnet_uri followed by session.add_torrent: none when either
raises (the broad except arm), some handle otherwise.  Returns the
updated worker and the emitted events. -/
def Worker.addMagnet (engineAdd : String → Option Handle) (w : Worker)
    (uri : String) (category : String) (tags : List String)
    (now : ℚ) : Worker × List Event :=
  if ¬w.sessionActive then (w, [])
  else if uri = "" ∨ ¬pyStartsWith (pyStrip uri) "magnet:" then
    -- logger.error("Invalid magnet URI: ...") and plain return
    (w, [])
  else
    match engineAdd (pyStrip uri) with
    | none => (w, [])
    | some handle =>
      let infoHash := handle.hash
      if (w.lookup infoHash).isSome then (w, [])
      else
        let t := Torrent.create handle category tags now
        ({ w with torrents := w.torrents ++ [(infoHash, t)] },
         [Event.torrentAdded infoHash])

/-- DELETE FROM resume_data WHERE info_hash = ? on a database state. -/
def DbState.deleteRow (db : DbState) (infoHash : String) : DbState :=
  match db.resumeTable with
  | none => db
  | some t =>
    let t' := { t with rows := t.rows.filter (fun r => r.infoHash ≠ infoHash) }
    { db with resumeTable := some t' }

/-- SessionWorker.remove_torrent (lines 298-326): unknown hash or no
session is a plain return; otherwise the engine removal, deletion from
the torrent dict, deletion of the resume row, and a single
torrent_removed emission. -/
def Worker.removeTorrent (w : Worker) (infoHash : String)
    (deleteFiles : Bool) : Worker × List Event :=
  match w.lookup infoHash with
  | none => (w, [])
  | some _ =>
    if ¬w.sessionActive then (w, [])
    else
      let torrents' := w.torrents.filter (fun p => p.1 ≠ infoHash)
      let db' := (w.resumeDb).map (fun db => db.deleteRow infoHash)
      ({ w with torrents := torrents', resumeDb := db' },
       [Event.torrentRemoved infoHash])

/-- The snapshot loop of SessionWorker._update_stats (lines 720-728):
for every torrent in table order, snapshot then record_speed; the
per-torrent try/except never fires because both calls are total.
Returns the updated table and the snapshot list. -/
def updateStatsSnapshots :
    List (String × Torrent) → List (String × Torrent) × List TorrentSnapshot
  | [] => ([], [])
  | (k, t) :: rest =>
    ((k, ((t.snapshot).1).recordSpeed) :: (updateStatsSnapshots rest).1,
     (t.snapshot).2 :: (updateStatsSnapshots rest).2)

/-- SessionWorker._load_resume_data (lines 516-534): read every row,
hand its blob to the engine (readResume models lt.read_resume_data plus
session.add_torrent; none = raised, row skipped), and file the torrent
under str(handle.info_hash()). -/
def loadResumeData (readResume : Row → Option Handle) (db : DbState)
    (now : ℚ) : List (String × Torrent) :=
  match db.resumeTable with
  | none => []
  | some t =>
    t.rows.foldl (fun acc r =>
      match readResume r with
      | none => acc
      | some handle =>
        let torrent := Torrent.create handle r.category r.tagsJson
          (if r.addedTime ≠ 0 then r.addedTime else now)
        acc ++ [(handle.hash, torrent)]) []

end Flux

namespace Flux

namespace Alias

/-! ## Reference model of the mutable lists around SessionStats

Python lists are mutable references.  Whether a SessionStats already
delivered to observers can change afterwards is exactly the question of
which list objects it shares with the worker, so this model tracks the
reference structure: a heap of integer-list cells (histories, and tag
lists with tags coded as integers; Python strings and ints are
immutable and passed by value, so the other SessionStats fields cannot
be affected by later activity).  Each mutation the source performs
in place is a write to the owning cell; each [:] copy the source takes
is an allocation of a fresh cell.  The cells of one worker:
self._session_dl_history / self._session_ul_history, and per torrent
self._tags, self._speed_history_dl, self._speed_history_ul. -/

/-- The heap: integer-list cells and an allocation counter. -/
structure Store where
  mem : Nat → List Int
  next : Nat

/-- Dereference a cell. -/
def Store.read (σ : Store) (c : Nat) : List Int := σ.mem c

/-- In-place mutation of an existing list object. -/
def Store.write (σ : Store) (c : Nat) (v : List Int) : Store :=
  { σ with mem := fun i => if i = c then v else σ.mem i }

/-- A list copy such as xs[:]: a fresh cell. -/
def Store.alloc (σ : Store) (v : List Int) : Store × Nat :=
  ({ mem := fun i => if i = σ.next then v else σ.mem i, next := σ.next + 1 },
   σ.next)

/-- The cells one Torrent wrapper owns and mutates. -/
structure TCells where
  tagsCell : Nat
  histDlCell : Nat
  histUlCell : Nat

/-- The worker-owned cells (session_worker.SessionWorker). -/
structure WState where
  store : Store
  sessDl : Nat
  sessUl : Nat
  torrents : List TCells

/-- The mutable parts of one emitted SessionStats, by reference:
dl_history, ul_history, and the tags list of each contained
TorrentSnapshot. -/
structure StatsRef where
  dlCell : Nat
  ulCell : Nat
  snapTagCells : List Nat

/-- The observable content of an emitted SessionStats: what an observer
sees when it dereferences the lists. -/
def readStats (σ : Store) (s : StatsRef) : List Int × List Int × List (List Int) :=
  (σ.read s.dlCell, σ.read s.ulCell, s.snapTagCells.map σ.read)

/-- The per-torrent part of one _update_stats tick (lines 722-726):
snapshot() copies self._tags into a fresh list (torrent.py line 200)
and record_speed() appends the observed rate to the wrapper-owned
histories in place (torrent.py lines 518-523, capacity 120).  Returns
the heap and the fresh tag cells of the snapshots, in table order. -/
def snapLoop (r : Int) : Store → List TCells → Store × List Nat
  | σ, [] => (σ, [])
  | σ, t :: rest =>
    let a := σ.alloc (σ.read t.tagsCell)
    let σ₂ := a.1.write t.histDlCell (capAppend 120 (a.1.read t.histDlCell) r)
    let σ₃ := σ₂.write t.histUlCell (capAppend 120 (σ₂.read t.histUlCell) r)
    let b := snapLoop r σ₃ rest
    (b.1, a.2 :: b.2)

/-- One stats tick, _update_stats (lines 699-739) at the reference
level: append the observed session rates to the worker-owned histories
in place (capacity 300, lines 709-714), run the snapshot loop, then
build the SessionStats from fresh copies of both session histories
(dl_history=...[:], lines 734-735) and emit it. -/
def tick (w : WState) (dl ul : Int) : WState × StatsRef :=
  let σ₁ := w.store.write w.sessDl (capAppend 300 (w.store.read w.sessDl) dl)
  let σ₂ := σ₁.write w.sessUl (capAppend 300 (σ₁.read w.sessUl) ul)
  let s := snapLoop dl σ₂ w.torrents
  let d := s.1.alloc (s.1.read w.sessDl)
  let u := d.1.alloc (d.1.read w.sessUl)
  ({ w with store := u.1 },
   { dlCell := d.2, ulCell := u.2, snapTagCells := s.2 })

/-- Torrent.add_tag (torrent.py lines 370-372): an in-place append to
the i-th torrent self._tags list.  (remove_tag and the category setter
mutate the same wrapper state; category is an immutable string, so only
the tags list is reference-shared.) -/
def addTag (w : WState) (i : Nat) (tag : Int) : WState :=
  match w.torrents.get? i with
  | none => w
  | some t =>
    { w with store := w.store.write t.tagsCell (w.store.read t.tagsCell ++ [tag]) }

/-- Later controller activity: further stats ticks (which also take the
later snapshots) and tag edits. -/
inductive Op
  | tick (dl ul : Int)
  | addTag (i : Nat) (tag : Int)

/-- Apply one operation, discarding anything newly emitted. -/
def applyOp (w : WState) : Op → WState
  | .tick dl ul => (tick w dl ul).1
  | .addTag i tag => addTag w i tag

/-- Apply a sequence of later operations. -/
def applyOps (ops : List Op) (w : WState) : WState := ops.foldl applyOp w

/-- Well-formed worker: every cell it owns has been allocated. -/
def WState.wf (w : WState) : Prop :=
  w.sessDl < w.store.next ∧ w.sessUl < w.store.next ∧
  ∀ t ∈ w.torrents, t.tagsCell < w.store.next
    ∧ t.histDlCell < w.store.next ∧ t.histUlCell < w.store.next

/-- A cell no worker-owned list aliases. -/
def notOwned (w : WState) (c : Nat) : Prop :=
  c ≠ w.sessDl ∧ c ≠ w.sessUl ∧
  ∀ t ∈ w.torrents, c ≠ t.tagsCell ∧ c ≠ t.histDlCell ∧ c ≠ t.histUlCell

end Alias

/-! ## Auxiliary definitions used by the theorems -/

/-- Well-formedness of the torrent table: each stored wrapper hashes to
its key, both through the live handle and through the cached snapshot.
Established when a torrent is created from the freshly added (valid)
engine handle and preserved by every snapshot. -/
def tableWF (ts : List (String × Torrent)) : Prop :=
  ∀ p ∈ ts, p.2.handle.hash = p.1 ∧ p.2.snap.infoHash = p.1

/-- A pre-existing resume database at schema version 0: no
schema_version table, no dl_limit / ul_limit columns, one persisted
row. -/
def legacyV0Db : DbState :=
  { schemaVersionTable := none,
    resumeTable := some
      { hasLimitCols := false,
        rows := [{ infoHash := "aaaaaaaaaaaaaaaaaaaaaaaaaaaaaaaaaaaaaaaa",
                   resumeBlob := [1, 2, 3] }] } }

/-- Concrete worker for the C7 witness: one torrent under key h1, one
resume row for it. -/
def c7w : Worker :=
  { sessionActive := true,
    torrents := [("h1", Torrent.create { hash := "h1", status := some {} } "" [] 0)],
    resumeDb := some
      { schemaVersionTable := some (some 2),
        resumeTable := some { hasLimitCols := true, rows := [{ infoHash := "h1" }] } } }

/-- Concrete table for the C8 witness: a healthy torrent, one whose
engine handle is invalid, and one whose status query raises. -/
def c8table : List (String × Torrent) :=
  [("h1", Torrent.create { hash := "h1", status := some {} } "" [] 0),
   ("h2", { handle := { hash := "h2", valid := false }, snap := { infoHash := "h2" } }),
   ("h3", { handle := { hash := "h3", valid := true, status := none },
            snap := { infoHash := "h3" } })]

/-- Concrete worker for the C9 witness: histories at cells 0 and 1, one
torrent owning cells 2, 3, 4, five cells allocated. -/
def Alias.c9w : Alias.WState :=
  { store := { mem := fun _ => [], next := 5 },
    sessDl := 0, sessUl := 1,
    torrents := [{ tagsCell := 2, histDlCell := 3, histUlCell := 4 }] }

end Flux

section Scratch

open Flux

example : pyContains "xmagnet:y" "magnet:" = true := by decide
example : pyContains "abc" "magnet:" = false := by decide
example : pyStartsWith "magnet:?x" "magnet:" = true := by decide
example : pyEndsWith "a.torrent" ".torrent" = true := by decide
example : pyStrip "  magnet:x " = "magnet:x" := by decide

end Scratch

namespace Flux

/-! ## C3 — snapshot state resolution -/

/-- C3: for every engine status bundle, the state field computed by
Torrent._resolve_state equals the specification decision tree with its
ten rules evaluated in order. -/
theorem c3_resolve_state_matches_spec (s : LtStatus) :
    resolveState s = resolveStateSpec s := by
  unfold resolveState resolveStateSpec
  by_cases he : s.errcValue ≠ 0
  · simp [he]
  · cases hp : s.paused <;> cases ha : s.autoManaged <;> cases hst : s.state <;>
      simp [he, hp, ha, hst]

/-! ## C5 — FeedItem.download_url -/

/-- C5 counterexample: the source promotes the link whenever it merely
contains the substring "magnet:", while the specification requires the
link to begin with it; on this item the two disagree. -/
theorem c5_counterexample :
    FeedItem.downloadUrl { link := "http://host/dl?magnet:x" } ≠
    FeedItem.downloadUrlSpec { link := "http://host/dl?magnet:x" } := by
  decide

/-- C5 as amended: download_url equals the magnet field if non-empty;
else the torrent_url field if non-empty; else the link field if and only
if the link ends with ".torrent" or contains the substring "magnet:";
else the empty string. -/
theorem c5_download_url_amended (it : FeedItem) :
    (it.magnet ≠ "" → it.downloadUrl = it.magnet)
    ∧ (it.magnet = "" → it.torrentUrl ≠ "" → it.downloadUrl = it.torrentUrl)
    ∧ (it.magnet = "" → it.torrentUrl = "" → it.link ≠ "" →
        (it.downloadUrl = it.link ↔
          (pyEndsWith it.link ".torrent" = true ∨ pyContains it.link "magnet:" = true)))
    ∧ (it.magnet = "" → it.torrentUrl = "" →
        ¬(it.link ≠ "" ∧ (pyEndsWith it.link ".torrent" ∨ pyContains it.link "magnet:")) →
        it.downloadUrl = "") := by
  unfold FeedItem.downloadUrl
  refine ⟨fun h1 => ?_, fun h1 h2 => ?_, fun h1 h2 hl => ?_, fun h1 h2 h3 => ?_⟩
  · simp [h1]
  · simp [h1, h2]
  · by_cases hc : pyEndsWith it.link ".torrent" = true ∨ pyContains it.link "magnet:" = true
    · simp [h1, h2, hl, hc]
    · simp only [h1, h2] at *
      simp [hl, hc]
      intro heq
      exact absurd heq.symm hl
  · simp [h1, h2, h3]

/-- C5 witness: the amended theorem applied at concrete items, one per
case of the derivation. -/
theorem c5_witness :
    FeedItem.downloadUrl { magnet := "magnet:?m" } = "magnet:?m"
    ∧ FeedItem.downloadUrl { torrentUrl := "http://t/a.torrent" } = "http://t/a.torrent"
    ∧ FeedItem.downloadUrl { link := "http://t/a.torrent" } = "http://t/a.torrent"
    ∧ FeedItem.downloadUrl { link := "http://t/page" } = "" := by
  refine ⟨(c5_download_url_amended _).1 (by decide),
          ((c5_download_url_amended _).2.1 (by decide) (by decide)),
          (((c5_download_url_amended _).2.2.1 (by decide) (by decide) (by decide)).mpr
            (Or.inl (by decide))),
          (((c5_download_url_amended _).2.2.2 (by decide) (by decide)) (by decide))⟩

/-! ## C6 — interval_minutes clamping -/

/-- C6 counterexample: a feed dict with interval_minutes = 1 loads via
FeedConfig.from_dict and RSSMonitor.load_config with the value 1
preserved; no clamping to 5 takes place, so the loaded config violates
the claimed invariant interval_minutes >= 5. -/
theorem c6_counterexample :
    (FeedConfig.fromDict { url := some "http://feed", intervalMinutes := some 1 }).intervalMinutes = 1
    ∧ ¬(5 ≤ (FeedConfig.fromDict { url := some "http://feed", intervalMinutes := some 1 }).intervalMinutes)
    ∧ loadConfig [{ url := some "http://feed", intervalMinutes := some 1 }] =
        [FeedConfig.fromDict { url := some "http://feed", intervalMinutes := some 1 }] := by
  refine ⟨rfl, by decide, by decide⟩

/-- C6 as amended: config load performs no validation of
interval_minutes at all; every loaded FeedConfig comes from some input
dict via from_dict, which preserves the given interval_minutes (default
30 when the key is absent). -/
theorem c6_interval_not_clamped (l : List FeedDict) (c : FeedConfig)
    (hc : c ∈ loadConfig l) :
    ∃ d ∈ l, c = FeedConfig.fromDict d
      ∧ c.intervalMinutes = d.intervalMinutes.getD 30 := by
  unfold loadConfig at hc
  obtain ⟨hmem, -⟩ := List.mem_filter.mp hc
  obtain ⟨d, hd, hdc⟩ := List.mem_map.mp hmem
  exact ⟨d, hd, hdc.symm, by rw [← hdc]; rfl⟩

/-- C6 witness: the amended theorem applied at a concrete feed list. -/
theorem c6_witness :
    ∃ d ∈ [({ url := some "http://feed", intervalMinutes := some 1 } : FeedDict)],
      FeedConfig.fromDict { url := some "http://feed", intervalMinutes := some 1 } =
        FeedConfig.fromDict d
      ∧ (FeedConfig.fromDict { url := some "http://feed", intervalMinutes := some 1 }).intervalMinutes =
          d.intervalMinutes.getD 30 :=
  c6_interval_not_clamped
    [{ url := some "http://feed", intervalMinutes := some 1 }]
    (FeedConfig.fromDict { url := some "http://feed", intervalMinutes := some 1 })
    (by decide)

/-! ## C4 — peer filter decision order -/

/-- C4: check_peer equals the specification decision algorithm (disabled
means allow; whitelist prefix match means allow even when a built-in
rule matches the same prefix; then built-in peer-id rules filtered by
the category flags, client-name patterns, custom rules, IP blocklist,
each returning the first matching rule reason; otherwise allow). -/
theorem c4_check_peer_matches_spec (research : String → String → Bool)
    (parseIp : String → Option Nat) (f : PeerFilter) (peerId : List Nat)
    (clientName ip : String) :
    PeerFilter.checkPeer research parseIp f peerId clientName ip =
      PeerFilter.checkPeerSpec research parseIp f peerId clientName ip
    ∧ (f.enabled = false →
        PeerFilter.checkPeer research parseIp f peerId clientName ip = (false, ""))
    ∧ (f.whitelist.any (fun p => pyStartsWith (peerIdStr peerId) p) = true →
        PeerFilter.checkPeer research parseIp f peerId clientName ip = (false, "")) := by
  refine ⟨?_, fun hf => ?_, fun hw => ?_⟩
  · cases hf : f.enabled <;>
      simp [PeerFilter.checkPeer, PeerFilter.checkPeerSpec, hf]
  · simp [PeerFilter.checkPeer, hf]
  · cases hf : f.enabled
    · simp [PeerFilter.checkPeer, hf]
    · simp [PeerFilter.checkPeer, hf, hw]

/-- C4 witness: a disabled filter allows a known-abusive Xunlei peer-id,
and a whitelist entry allows the same peer-id even though the built-in
-XL rule matches it.  The peer-id bytes spell "-XL1234-". -/
theorem c4_witness :
    PeerFilter.checkPeer (fun _ _ => false) (fun _ => none)
      { enabled := false } [45, 88, 76, 49, 50, 51, 52, 45] "Xunlei 7.1.2.3" "1.2.3.4"
      = (false, "")
    ∧ PeerFilter.checkPeer (fun _ _ => false) (fun _ => none)
      { whitelist := ["-XL"] } [45, 88, 76, 49, 50, 51, 52, 45] "client" "1.2.3.4"
      = (false, "") :=
  ⟨(c4_check_peer_matches_spec (fun _ _ => false) (fun _ => none)
      { enabled := false } [45, 88, 76, 49, 50, 51, 52, 45] "Xunlei 7.1.2.3" "1.2.3.4").2.1 rfl,
   (c4_check_peer_matches_spec (fun _ _ => false) (fun _ => none)
      { whitelist := ["-XL"] } [45, 88, 76, 49, 50, 51, 52, 45] "client" "1.2.3.4").2.2
     (by decide)⟩

/-! ## C10 — unparseable peer address -/

/-- C10: when the peer address does not parse, _check_ip_blocked reports
not-blocked, the whole decision is independent of the configured
blocklist ranges, and with no other rule matching check_peer falls
through to allow. -/
theorem c10_unparseable_ip_blocklist_safe (research : String → String → Bool)
    (parseIp : String → Option Nat) (f : PeerFilter) (peerId : List Nat)
    (clientName ip : String) (hp : parseIp ip = none) :
    PeerFilter.checkIpBlocked parseIp f ip = false
    ∧ (∀ L : List (Nat × Nat),
        PeerFilter.checkPeer research parseIp { f with ipBlocklist := L } peerId clientName ip =
          PeerFilter.checkPeer research parseIp { f with ipBlocklist := [] } peerId clientName ip)
    ∧ (f.enabled = true →
        f.whitelist.any (fun p => pyStartsWith (peerIdStr peerId) p) = false →
        (f.getActiveRules).find? (fun r => pyStartsWith (peerIdStr peerId) r.pattern) = none →
        SUSPICIOUS_CLIENTS.find? (fun r => r.enabled && research r.pattern clientName) = none →
        f.customBans.find? (fun r =>
          r.enabled && (pyStartsWith (peerIdStr peerId) r.pattern
            || research r.pattern clientName)) = none →
        PeerFilter.checkPeer research parseIp f peerId clientName ip = (false, "")) := by
  refine ⟨?_, fun L => ?_, fun he hw h3 h4 h5 => ?_⟩
  · simp [PeerFilter.checkIpBlocked, hp]
  · simp [PeerFilter.checkPeer, PeerFilter.checkIpBlocked, PeerFilter.getActiveRules, hp]
  · simp [PeerFilter.checkPeer, PeerFilter.checkIpBlocked, he, hw, h3, h4, h5, hp]

/-- C10 witness: an IPv6 peer address with a full-range IPv4 blocklist
configured; the blocklist step reports not-blocked and the peer is
allowed.  The peer-id bytes spell "-qB4500-". -/
theorem c10_witness :
    PeerFilter.checkIpBlocked (fun _ => none)
      { ipBlocklist := [(0, 4294967295)] } "2001:db8::1" = false
    ∧ PeerFilter.checkPeer (fun _ _ => false) (fun _ => none)
      { ipBlocklist := [(0, 4294967295)] }
      [45, 113, 66, 52, 53, 48, 48, 45] "qBittorrent/4.5.0" "2001:db8::1" = (false, "") := by
  refine ⟨(c10_unparseable_ip_blocklist_safe (fun _ _ => false) (fun _ => none)
      { ipBlocklist := [(0, 4294967295)] }
      [45, 113, 66, 52, 53, 48, 48, 45] "qBittorrent/4.5.0" "2001:db8::1" rfl).1,
    (c10_unparseable_ip_blocklist_safe (fun _ _ => false) (fun _ => none)
      { ipBlocklist := [(0, 4294967295)] }
      [45, 113, 66, 52, 53, 48, 48, 45] "qBittorrent/4.5.0" "2001:db8::1" rfl).2.2
      rfl (by decide) (by decide) (by decide) (by decide)⟩

/-! ## C1 — invalid AddMagnet -/

/-- C1 counterexample: AddMagnet("not-a-magnet") on a running worker
returns the worker unchanged and emits the empty event list — so no
AddFailed(reason) event, which the claim asserts is emitted; the worker
has no add-failure signal at all. -/
theorem c1_counterexample :
    Worker.addMagnet (fun _ => none) { sessionActive := true }
        "not-a-magnet" "" [] 0 = ({ sessionActive := true }, []) := by
  decide

/-- C1 as amended: for every AddMagnet whose URI is empty or does not
begin with "magnet:" after stripping, the slot returns with the worker
state unchanged and emits no event at all: no torrent added, the
torrent table untouched, no TorrentAdded — and no AddFailed either,
because the failure is only logged. -/
theorem c1_invalid_magnet_noop (engineAdd : String → Option Handle)
    (w : Worker) (uri category : String) (tags : List String) (now : ℚ)
    (hinv : uri = "" ∨ pyStartsWith (pyStrip uri) "magnet:" = false) :
    Worker.addMagnet engineAdd w uri category tags now = (w, []) := by
  have hcond : uri = "" ∨ ¬(pyStartsWith (pyStrip uri) "magnet:" = true) := by
    rcases hinv with h | h
    · exact Or.inl h
    · exact Or.inr (by simp [h])
  unfold Worker.addMagnet
  by_cases ha : w.sessionActive = true
  · rw [if_neg (show ¬¬(w.sessionActive = true) from not_not_intro ha), if_pos hcond]
  · rw [if_pos ha]

/-- C1 witness: the amended theorem at the two boundary inputs of the
specification, an empty URI and a non-magnet URI. -/
theorem c1_witness :
    Worker.addMagnet (fun _ => none) { sessionActive := true }
        "not-a-magnet" "" [] 0 = ({ sessionActive := true }, [])
    ∧ Worker.addMagnet (fun _ => none) { sessionActive := true }
        "" "" [] 0 = ({ sessionActive := true }, []) :=
  ⟨c1_invalid_magnet_noop _ _ _ _ _ _ (Or.inr (by decide)),
   c1_invalid_magnet_noop _ _ _ _ _ _ (Or.inl rfl)⟩

/-! ## C7 — Remove semantics -/

/-- Helper for C7: after DELETE FROM resume_data WHERE info_hash = h,
no surviving row carries h. -/
theorem deleteRow_no_row (db : DbState) (h : String) (tb : ResumeTable)
    (r : Row) (htb : (db.deleteRow h).resumeTable = some tb)
    (hr : r ∈ tb.rows) : r.infoHash ≠ h := by
  unfold DbState.deleteRow at htb
  cases hcase : db.resumeTable with
  | none =>
    rw [hcase] at htb
    rw [hcase] at htb
    exact absurd htb (by simp)
  | some t0 =>
    rw [hcase] at htb
    simp only [Option.some.injEq] at htb
    rw [← htb] at hr
    have := (List.mem_filter.mp hr).2
    simpa using this

/-- C7: removing a known info_hash with delete_files = false deletes the
resume row, removes the torrent from the table (leaving the others),
and emits exactly one TorrentRemoved; removing an unknown info_hash is
a complete no-op. -/
theorem c7_remove_torrent (w : Worker) (h : String) (t : Torrent)
    (db : DbState) (hact : w.sessionActive = true)
    (hmem : w.lookup h = some t) (hdb : w.resumeDb = some db) :
    ((w.removeTorrent h false).2 = [Event.torrentRemoved h]
      ∧ (w.removeTorrent h false).1.lookup h = none
      ∧ (w.removeTorrent h false).1.torrents = w.torrents.filter (fun p => p.1 ≠ h)
      ∧ (w.removeTorrent h false).1.resumeDb = some (db.deleteRow h)
      ∧ ∀ dbr tb r, (w.removeTorrent h false).1.resumeDb = some dbr →
          dbr.resumeTable = some tb → r ∈ tb.rows → r.infoHash ≠ h)
    ∧ ∀ (w₂ : Worker) (h₂ : String) (df : Bool),
        w₂.lookup h₂ = none → w₂.removeTorrent h₂ df = (w₂, []) := by
  constructor
  · have hred : w.removeTorrent h false =
        ({ w with
            torrents := w.torrents.filter (fun p => p.1 ≠ h),
            resumeDb := (w.resumeDb).map (fun d => d.deleteRow h) },
         [Event.torrentRemoved h]) := by
      unfold Worker.removeTorrent
      rw [hmem]
      simp [hact]
    refine ⟨by rw [hred], ?_, by rw [hred], by rw [hred, hdb]; rfl, ?_⟩
    · rw [hred]
      show ((w.torrents.filter (fun p => p.1 ≠ h)).find?
        (fun p => p.1 = h)).map Prod.snd = none
      have hfind : (w.torrents.filter (fun p => p.1 ≠ h)).find?
          (fun p => p.1 = h) = none := by
        apply List.find?_eq_none.mpr
        intro x hx
        have hne := (List.mem_filter.mp hx).2
        simpa using hne
      rw [hfind]
      rfl
    · intro dbr tb r hdbr htb hr
      rw [hred, hdb] at hdbr
      simp only [Option.map_some', Option.some.injEq] at hdbr
      rw [← hdbr] at htb
      exact deleteRow_no_row db h tb r htb hr
  · intro w₂ h₂ df hnone
    unfold Worker.removeTorrent
    rw [hnone]

/-- C7 witness: the theorem applied at the concrete worker, for a known
and for an unknown hash. -/
theorem c7_witness :
    ((c7w.removeTorrent "h1" false).2 = [Event.torrentRemoved "h1"]
      ∧ (c7w.removeTorrent "h1" false).1.lookup "h1" = none)
    ∧ c7w.removeTorrent "h2" false = (c7w, []) :=
  ⟨⟨(c7_remove_torrent c7w "h1" _ _ rfl rfl rfl).1.1,
    (c7_remove_torrent c7w "h1" _ _ rfl rfl rfl).1.2.1⟩,
   (c7_remove_torrent c7w "h1" _ _ rfl rfl rfl).2 c7w "h2" false rfl⟩

/-! ## C2 — resume database migration from version 0 -/

/-- C2, code bug demonstration: on a pre-existing version-0 resume
database with a persisted row, _init_resume_db stamps schema version 2
and the persisted info_hash is still loaded — but the version-0 branch
creates the table without dl_limit / ul_limit and never runs the 1-to-2
column migration, so the columns the claim (and the migration path
itself, shown last) would add are absent. -/
theorem c2_migration_bug :
    getSchemaVersion (initResumeDb legacyV0Db) = 2
    ∧ (initResumeDb legacyV0Db).resumeTable = some
        { hasLimitCols := false,
          rows := [{ infoHash := "aaaaaaaaaaaaaaaaaaaaaaaaaaaaaaaaaaaaaaaa",
                     resumeBlob := [1, 2, 3] }] }
    ∧ (loadResumeData (fun r => some { hash := r.infoHash })
          (initResumeDb legacyV0Db) 1).map Prod.fst
        = ["aaaaaaaaaaaaaaaaaaaaaaaaaaaaaaaaaaaaaaaa"]
    ∧ (migrateSchema legacyV0Db 0).resumeTable = some
        { hasLimitCols := true,
          rows := [{ infoHash := "aaaaaaaaaaaaaaaaaaaaaaaaaaaaaaaaaaaaaaaa",
                     resumeBlob := [1, 2, 3] }] } := by
  exact ⟨rfl, rfl, rfl, rfl⟩

/-! ## C8 — one snapshot per info_hash in every stats tick -/

/-- Helper for C8: a snapshot call on a wrapper whose handle and cached
snapshot both carry the table key reproduces that key, on all three
paths (valid status, invalid handle, raising status call). -/
theorem snapshot_key (t : Torrent) (k : String) (hh : t.handle.hash = k)
    (hs : t.snap.infoHash = k) :
    (t.snapshot).2.infoHash = k
    ∧ (t.snapshot).1.handle.hash = k
    ∧ (t.snapshot).1.snap.infoHash = k := by
  unfold Torrent.snapshot
  by_cases hv : t.handle.valid = true
  · cases hst : t.handle.status with
    | none => simp [hv, hst, hs, hh]
    | some s => simp [hv, hst, hh]
  · simp [hv, hs, hh]

/-- Helper for C8: the emitted snapshot list carries exactly the table
keys, in table order. -/
theorem updateStats_hashes (ts : List (String × Torrent)) (hwf : tableWF ts) :
    (updateStatsSnapshots ts).2.map (fun s => s.infoHash) = ts.map Prod.fst := by
  induction ts with
  | nil => rfl
  | cons p rest ih =>
    have hp := hwf p (by simp)
    have hrest : tableWF rest := fun q hq => hwf q (by simp [hq])
    obtain ⟨k, t⟩ := p
    have hsnap := (snapshot_key t k hp.1 hp.2).1
    simpa [updateStatsSnapshots, hsnap] using ih hrest

/-- Helper for C8: in a snapshot list whose hashes are exactly a
duplicate-free key list, each key owns exactly one snapshot. -/
theorem filter_hash_length (snaps : List TorrentSnapshot) (keys : List String)
    (hm : snaps.map (fun s => s.infoHash) = keys) (hnd : keys.Nodup)
    (k : String) (hk : k ∈ keys) :
    (snaps.filter (fun s => s.infoHash = k)).length = 1 := by
  induction snaps generalizing keys with
  | nil =>
    subst hm
    simp at hk
  | cons s rest ih =>
    subst hm
    simp only [List.map_cons, List.nodup_cons] at hnd hk
    obtain ⟨hns, hndr⟩ := hnd
    rcases List.mem_cons.mp hk with hks | hkr
    · have hhead : s.infoHash = k := hks.symm
      have hrest0 : rest.filter (fun x => x.infoHash = k) = [] := by
        apply List.filter_eq_nil_iff.mpr
        intro a ha
        simp only [decide_eq_true_eq]
        intro hak
        exact hns (hhead ▸ hak ▸ List.mem_map_of_mem (fun s => s.infoHash) ha)
      simp [List.filter_cons, hhead, hrest0]
    · have hne : ¬(s.infoHash = k) := fun he => hns (he ▸ hkr)
      simpa [List.filter_cons, hne] using
        ih (rest.map (fun s => s.infoHash)) rfl hndr hkr

/-- C8: for every stats tick over a well-formed torrent table with
duplicate-free keys, the emitted snapshot list carries exactly the
table keys in order (so exactly one TorrentSnapshot per info_hash, its
info_hash field equal to the table key) — the well-formedness
hypothesis places no constraint on handle validity or on the status
query succeeding. -/
theorem c8_stats_snapshots (ts : List (String × Torrent)) (hwf : tableWF ts)
    (hnd : (ts.map Prod.fst).Nodup) :
    ((updateStatsSnapshots ts).2.map (fun s => s.infoHash) = ts.map Prod.fst)
    ∧ ∀ k ∈ ts.map Prod.fst,
        ((updateStatsSnapshots ts).2.filter (fun s => s.infoHash = k)).length = 1 :=
  ⟨updateStats_hashes ts hwf,
   fun k hk => filter_hash_length _ _ (updateStats_hashes ts hwf) hnd k hk⟩

/-- C8 witness: the theorem applied at the concrete three-torrent table,
invalid handle and failing status query included. -/
theorem c8_witness :
    ((updateStatsSnapshots c8table).2.map (fun s => s.infoHash) = c8table.map Prod.fst)
    ∧ ∀ k ∈ c8table.map Prod.fst,
        ((updateStatsSnapshots c8table).2.filter (fun s => s.infoHash = k)).length = 1 :=
  c8_stats_snapshots c8table (by unfold tableWF; decide) (by decide)

end Flux

namespace Flux.Alias

/-! ## C9 — frame lemmas for the reference model -/

/-- Writing one cell leaves every other cell unchanged. -/
theorem write_read_ne (σ : Store) (c c' : Nat) (v : List Int) (h : c' ≠ c) :
    (σ.write c v).mem c' = σ.mem c' := by
  simp [Store.write, h]

/-- Writing never allocates. -/
theorem write_next (σ : Store) (c : Nat) (v : List Int) :
    (σ.write c v).next = σ.next := rfl

/-- Allocation leaves every already-allocated cell unchanged. -/
theorem alloc_read_lt (σ : Store) (v : List Int) (c : Nat) (h : c < σ.next) :
    (σ.alloc v).1.mem c = σ.mem c := by
  simp [Store.alloc, Nat.ne_of_lt h]

/-- Allocation bumps the counter by one. -/
theorem alloc_next (σ : Store) (v : List Int) :
    (σ.alloc v).1.next = σ.next + 1 := rfl

/-- The snapshot loop allocates one fresh tag-copy cell per torrent. -/
theorem snapLoop_next (r : Int) (ts : List TCells) :
    ∀ σ : Store, (snapLoop r σ ts).1.next = σ.next + ts.length := by
  induction ts with
  | nil => intro σ; rfl
  | cons t rest ih =>
    intro σ
    simp only [snapLoop]
    rw [ih]
    show (σ.next + 1) + rest.length = σ.next + (rest.length + 1)
    omega

/-- The snapshot loop only writes wrapper-owned history cells and fresh
cells: any older cell owned by nobody in the table keeps its value. -/
theorem snapLoop_frame (r : Int) (ts : List TCells) :
    ∀ (σ : Store) (c : Nat), c < σ.next →
    (∀ t ∈ ts, c ≠ t.tagsCell ∧ c ≠ t.histDlCell ∧ c ≠ t.histUlCell) →
    (snapLoop r σ ts).1.mem c = σ.mem c := by
  induction ts with
  | nil => intro σ c _ _; rfl
  | cons t rest ih =>
    intro σ c hc hno
    have ht := hno t (List.mem_cons_self t rest)
    have hrest : ∀ t' ∈ rest, c ≠ t'.tagsCell ∧ c ≠ t'.histDlCell ∧ c ≠ t'.histUlCell :=
      fun t' h' => hno t' (List.mem_cons_of_mem t h')
    simp only [snapLoop]
    refine (ih _ c ?_ hrest).trans ?_
    · exact Nat.lt_succ_of_lt hc
    · rw [write_read_ne _ _ _ _ ht.2.2, write_read_ne _ _ _ _ ht.2.1,
        alloc_read_lt _ _ _ hc]

/-- Every tag-copy cell the snapshot loop emits is fresh: at or above
the entry counter and below the exit counter. -/
theorem snapLoop_cells (r : Int) (ts : List TCells) :
    ∀ (σ : Store), ∀ x ∈ (snapLoop r σ ts).2,
      σ.next ≤ x ∧ x < (snapLoop r σ ts).1.next := by
  induction ts with
  | nil => intro σ x hx; simp [snapLoop] at hx
  | cons t rest ih =>
    intro σ x hx
    simp only [snapLoop, List.mem_cons] at hx
    rcases hx with rfl | hx
    · refine ⟨le_refl _, ?_⟩
      simp only [snapLoop]
      rw [snapLoop_next]
      show σ.next < (σ.next + 1) + rest.length
      omega
    · have := ih _ x hx
      refine ⟨le_trans ?_ this.1, ?_⟩
      · show σ.next ≤ σ.next + 1
        omega
      · simpa only [snapLoop] using this.2

/-- One tick leaves the worker-owned cell identities untouched. -/
theorem tick_fields (w : WState) (dl ul : Int) :
    (tick w dl ul).1.sessDl = w.sessDl
    ∧ (tick w dl ul).1.sessUl = w.sessUl
    ∧ (tick w dl ul).1.torrents = w.torrents :=
  ⟨rfl, rfl, rfl⟩

/-- A tick allocates the tag copies plus the two history copies. -/
theorem tick_next (w : WState) (dl ul : Int) :
    (tick w dl ul).1.store.next = w.store.next + w.torrents.length + 2 := by
  simp only [tick]
  rw [alloc_next, alloc_next, snapLoop_next, write_next, write_next]

/-- The cells of the emitted SessionStats: both history copies and all
tag copies are fresh relative to the pre-tick counter, and all are
below the post-tick counter. -/
theorem tick_cells (w : WState) (dl ul : Int) :
    (tick w dl ul).2.dlCell = w.store.next + w.torrents.length
    ∧ (tick w dl ul).2.ulCell = w.store.next + w.torrents.length + 1
    ∧ ∀ x ∈ (tick w dl ul).2.snapTagCells,
        w.store.next ≤ x ∧ x < w.store.next + w.torrents.length := by
  refine ⟨?_, ?_, fun x hx => ?_⟩
  · show (snapLoop dl _ w.torrents).1.next = _
    rw [snapLoop_next, write_next, write_next]
  · show (snapLoop dl _ w.torrents).1.next + 1 = _
    rw [snapLoop_next, write_next, write_next]
  · have hbnd := snapLoop_cells dl w.torrents _ x hx
    rw [snapLoop_next, write_next, write_next] at hbnd
    exact hbnd

/-- A tick does not move any cell that was allocated before it and is
not one of the worker-owned lists. -/
theorem tick_frame (w : WState) (dl ul : Int) (c : Nat)
    (hc : c < w.store.next) (hn : notOwned w c) :
    (tick w dl ul).1.store.mem c = w.store.mem c := by
  obtain ⟨h1, h2, h3⟩ := hn
  show ((((snapLoop dl ((w.store.write w.sessDl _).write w.sessUl _)
      w.torrents).1.alloc _).1.alloc _).1).mem c = w.store.mem c
  rw [alloc_read_lt, alloc_read_lt, snapLoop_frame _ _ _ _ ?_ h3,
    write_read_ne _ _ _ _ h2, write_read_ne _ _ _ _ h1]
  · rw [write_next, write_next]
    exact hc
  · rw [snapLoop_next, write_next, write_next]
    omega
  · rw [alloc_next, snapLoop_next, write_next, write_next]
    omega

/-- A tag edit writes only the tags cell of an existing torrent. -/
theorem addTag_frame (w : WState) (i : Nat) (tag : Int) (c : Nat)
    (hn : notOwned w c) :
    (addTag w i tag).store.mem c = w.store.mem c
    ∧ (addTag w i tag).store.next = w.store.next
    ∧ (addTag w i tag).sessDl = w.sessDl
    ∧ (addTag w i tag).sessUl = w.sessUl
    ∧ (addTag w i tag).torrents = w.torrents := by
  unfold addTag
  cases hg : w.torrents.get? i with
  | none => exact ⟨rfl, rfl, rfl, rfl, rfl⟩
  | some t =>
    have htmem : t ∈ w.torrents := List.get?_mem hg
    have hne := (hn.2.2 t htmem).1
    exact ⟨write_read_ne _ _ _ _ hne, rfl, rfl, rfl, rfl⟩

/-- One later operation cannot move a cell that is allocated but owned
by none of the worker lists; and the cell stays in that status. -/
theorem applyOp_frame (w : WState) (o : Op) (c : Nat)
    (hc : c < w.store.next) (hn : notOwned w c) :
    (applyOp w o).store.mem c = w.store.mem c
    ∧ c < (applyOp w o).store.next
    ∧ notOwned (applyOp w o) c := by
  cases o with
  | tick dl ul =>
    refine ⟨tick_frame w dl ul c hc hn, ?_, ?_⟩
    · show c < (tick w dl ul).1.store.next
      rw [tick_next]
      omega
    · obtain ⟨h1, h2, h3⟩ := hn
      exact ⟨h1, h2, h3⟩
  | addTag i tag =>
    obtain ⟨hm, hnx, hd, hu, ht⟩ := addTag_frame w i tag c hn
    refine ⟨hm, ?_, ?_, ?_, ?_⟩
    · show c < (addTag w i tag).store.next
      rw [hnx]
      exact hc
    · show c ≠ (addTag w i tag).sessDl
      rw [hd]
      exact hn.1
    · show c ≠ (addTag w i tag).sessUl
      rw [hu]
      exact hn.2.1
    · show ∀ t ∈ (addTag w i tag).torrents, _
      rw [ht]
      exact hn.2.2

/-- A whole sequence of later operations cannot move such a cell. -/
theorem applyOps_frame (ops : List Op) :
    ∀ (w : WState) (c : Nat), c < w.store.next → notOwned w c →
    (applyOps ops w).store.mem c = w.store.mem c := by
  induction ops with
  | nil => intro w c _ _; rfl
  | cons o rest ih =>
    intro w c hc hn
    obtain ⟨hm, hc', hn'⟩ := applyOp_frame w o c hc hn
    calc (applyOps (o :: rest) w).store.mem c
        = (applyOps rest (applyOp w o)).store.mem c := rfl
      _ = (applyOp w o).store.mem c := ih _ c hc' hn'
      _ = w.store.mem c := hm

/-- In a well-formed worker any cell at or above the allocation counter
is owned by none of the worker lists. -/
theorem fresh_notOwned (w : WState) (x : Nat) (hwf : w.wf)
    (hx : w.store.next ≤ x) : notOwned w x := by
  obtain ⟨h1, h2, h3⟩ := hwf
  refine ⟨by omega, by omega, fun t ht => ?_⟩
  obtain ⟨ha, hb, hc⟩ := h3 t ht
  exact ⟨by omega, by omega, by omega⟩

/-- C9: a SessionStats emitted by a stats tick is immutable once
emitted.  Every list it carries (dl_history, ul_history, the tags list
of every contained TorrentSnapshot) is a fresh copy, so no sequence of
later controller operations — further stats ticks appending to the
session rate histories and taking later snapshots, or tag edits on a
torrent — changes what an observer reads through the delivered value. -/
theorem c9_emitted_stats_immutable (w : WState) (hwf : w.wf) (dl ul : Int)
    (ops : List Op) :
    readStats ((applyOps ops (tick w dl ul).1).store) ((tick w dl ul).2)
      = readStats ((tick w dl ul).1.store) ((tick w dl ul).2) := by
  obtain ⟨hdc, huc, hsc⟩ := tick_cells w dl ul
  have hnext := tick_next w dl ul
  have hkey : ∀ x : Nat, w.store.next ≤ x →
      x < w.store.next + w.torrents.length + 2 →
      (applyOps ops (tick w dl ul).1).store.mem x
        = (tick w dl ul).1.store.mem x := by
    intro x h1 h2
    apply applyOps_frame
    · rw [hnext]
      exact h2
    · obtain ⟨a, b, c⟩ := fresh_notOwned w x hwf h1
      exact ⟨a, b, c⟩
  unfold readStats Store.read
  refine congrArg₂ Prod.mk ?_ (congrArg₂ Prod.mk ?_ ?_)
  · exact hkey _ (by rw [hdc]; omega) (by rw [hdc]; omega)
  · exact hkey _ (by rw [huc]; omega) (by rw [huc]; omega)
  · refine List.map_congr_left (fun x hx => ?_)
    exact hkey x (hsc x hx).1 (by have := (hsc x hx).2; omega)

/-- C9 witness: the theorem at the concrete worker, with a tag edit and
a further tick following the emission. -/
theorem c9_witness :
    readStats ((applyOps [Op.addTag 0 7, Op.tick 9 9] (tick c9w 5 6).1).store)
        ((tick c9w 5 6).2)
      = readStats ((tick c9w 5 6).1.store) ((tick c9w 5 6).2) :=
  c9_emitted_stats_immutable c9w
    (by unfold WState.wf; refine ⟨by decide, by decide, by decide⟩) 5 6
    [Op.addTag 0 7, Op.tick 9 9]

end Flux.Alias
